import Mathlib

/-!
# Verification of the `common_utils` report-assembly pipeline

A shallow embedding of `general_utils/single_sheet_report.py`,
`general_utils/single_index_centered_report.py` and the relevant parts of
`general_utils/utils.py`, together with proofs about the embedded functions.

Conventions of the embedding:

* A pandas `DataFrame` with a two-level column index is modelled as `Report`:
  a row-label list (`index`), a column-label list (`columns`, each label a
  `(field, method)` pair) and a cell map from labels to `Option α`
  (`none` models a NaN/absent cell).
* Python exceptions are modelled by the `PyErr` inductive; fallible code
  returns `Except (PyErr α) _`.
* Score values are a type parameter `α`; the scoring function returns
  `Score α`, the tagged scalar-or-tuple shape the source accepts.
* The backing store (`DatabaseClient`), the content-handle provider
  (`DatasetFileClient`) and the run-query object (`RunQuery`) are external
  collaborators of this repository whose code is not under `src/`; they are
  modelled from the spec's interface description (section 6).
-/

set_option autoImplicit false

namespace CommonUtils

/-- A pandas dtype, modelled as a partial conversion on cell values:
`none` means the value cannot be converted to the dtype. -/
def Dtype (α : Type) : Type := α → Option α

/-- The duck-typed return shape of a caller-supplied scoring function:
either a bare scalar or an ordered tuple of values
(`single_sheet_report.py` line 103 checks `isinstance(score, tuple)`). -/
inductive Score (α : Type) where
  | scalar (v : α)
  | tup (vs : List α)
  deriving DecidableEq

/-- Python exceptions reachable in the embedded code.

Modelled from the spec: the class `MethodNotFound` is imported from the
repository's `errors` module, which is not under `src/`; per spec
section 7 it "carries the comma-joined list of missing names".
`searchValNotFound` models the domain error the spec (section 7) and
line 324 of `utils.py` intend, carrying the searched column and value —
but `utils.py` has no binding for the name `SearchValNotFound` (see
`utilsModuleNames`), so the code path that would raise it actually raises
`NameError` and the constructor is only reachable in the dead
resolved-name branch of `get_value`.  `keyError`, `valueError` and
`nameError` model the built-in Python exceptions of those names. -/
inductive PyErr (α : Type) where
  | methodNotFound (msg : String)
  | keyError (key : String)
  | valueError (msg : String)
  | nameError (msg : String)
  | searchValNotFound (search_col_name : String) (search_val : α)
  deriving DecidableEq

/-- `str(e)` for the exceptions of `PyErr`.  A single-argument `Exception`
stringifies to its argument; `KeyError` stringifies to the `repr` of the
key (hence the quotes).  The string for `searchValNotFound` is modelled from
the spec only as far as any claim needs: no claim constrains it. -/
def pyStr {α : Type} : PyErr α → String
  | .methodNotFound msg => msg
  | .keyError key => "\x27" ++ key ++ "\x27"
  | .valueError msg => msg
  | .nameError msg => msg
  | .searchValNotFound c _ => "search value not found in column " ++ c

/-- Modelled from the spec: a method record of the store —
"fetch a method record (has a name and an associated list of dataset names)". -/
structure Method where
  name : String
  datasets : List String
  deriving DecidableEq

/-- Modelled from the spec: a dataset record of the store —
"fetch a dataset record (has a name and a file path)". -/
structure Dataset where
  name : String
  absolute_path : String
  deriving DecidableEq

/-- Modelled from the spec: the content-handle provider — "given a dataset's
path, an openable content handle".  The source constructs it as
`DatasetFileClient(d.absolute_path)`. -/
structure DatasetFileClient where
  path : String
  deriving DecidableEq, Inhabited

/-- Modelled from the spec: the per-dataset contents query wrapped around a
file client; the source constructs `DatasetContentsQuery(file_client)` and
passes it opaquely to `RunQuery`. -/
structure DatasetContentsQuery where
  file_client : DatasetFileClient
  deriving DecidableEq, Inhabited

/-- Modelled from the spec: "`RunQuery(content_handle, method_name) ->
query object` passed opaquely into the caller-supplied scoring function;
the core never inspects it". -/
structure RunQuery where
  contents_query : DatasetContentsQuery
  method_name : String
  deriving DecidableEq, Inhabited

/-- Modelled from the spec: the store gateway interface — "`get_all_methods()
-> sequence of name`, `get_all_datasets() -> sequence of name`,
`get_method(name) -> Method`, `get_dataset(name) -> Dataset`".  The source
only calls `get_method` on validated names and `get_dataset` on names from
`get_all_datasets`, so the accessors are modelled as total. -/
structure DatabaseClient where
  get_all_methods : List String
  get_all_datasets : List String
  get_method : String → Method
  get_dataset : String → Dataset

/-- `DATA_SET_NAME`: the label of the dataset-name column, imported in the
source from `database.models.accuracy_report` (not under `src/`).
Modelled from the spec: the row index is "named `Data Set`". -/
def DATA_SET_NAME : String := "Data Set"

/-- The intermediate frame returned by `_get_score_for_method_`:
columns `[DATA_SET_NAME] + score_names`, one row per dataset processed.
A row is modelled as the dataset name (the `DATA_SET_NAME` column) paired
with the list of score values (the `score_names` columns, in order). -/
structure ScoreFrame (α : Type) where
  score_names : List String
  rows : List (String × List α)
  deriving DecidableEq

/-- A pandas `DataFrame` with row labels `index` and two-level column labels
`columns` (pairs `(field, method)`); `cell` gives the value at a (row label,
column label) position, `none` modelling NaN.  Only positions in
`index × columns` are part of the frame. -/
structure Report (α : Type) where
  index : List String
  columns : List (String × String)
  cell : String → String × String → Option α

instance {α : Type} : Inhabited (Report α) := ⟨⟨[], [], fun _ _ => none⟩⟩

/-- The cell grid of a report as a list of rows (row-major), for concrete
evaluation of reports. -/
def Report.grid {α : Type} (r : Report α) : List (List (Option α)) :=
  r.index.map fun d => r.columns.map fun c => r.cell d c

/-- Python dict lookup on an association list built by successive insertion:
for duplicate keys the latest insertion wins, hence the `reverse`. -/
def pyGet {β : Type} (l : List (String × β)) (k : String) : Option β :=
  l.reverse.lookup k

/-- `list(set(xs) - set(ys))` (line 56 of `single_sheet_report.py`): the
elements of `xs` not in `ys`, without duplicates.  A Python `set` iterates
in an unspecified order; the embedding fixes an order (`List.dedup` keeps
the last occurrence of each element), which no claim depends on. -/
def pySetDiff (xs ys : List String) : List String :=
  (xs.filter fun x => !ys.contains x).dedup

/-- `pd.MultiIndex.from_product([fields, methods])` and
`itertools.product(fields, [method])`: the Cartesian product in
field-major, method-minor order. -/
def pyProduct (fields methods : List String) : List (String × String) :=
  fields.flatMap fun f => methods.map fun m => (f, m)

/-- `pd.DataFrame(data=[], index=dataset_index, columns=multi_index_columns)`
(line 64): the frame with the given shape, every cell NaN. -/
def emptyReport {α : Type} (datasets : List String)
    (cols : List (String × String)) : Report α :=
  { index := datasets, columns := cols, cell := fun _ _ => none }

/-- The dataset-name loop body of `_get_score_for_method_` (lines 98-106):
for each dataset of the method, look the file client up in the mapping
(`dataset_name_to_file_client[d]`, a `KeyError` when absent), build the
run query, call the scoring function and normalize its scalar-or-tuple
result into a row `[d] + list(score)` / `[d, score]`. -/
def collectRows {α : Type} (method : Method)
    (dataset_name_to_file_client : List (String × DatasetFileClient))
    (score_func : RunQuery → Score α) :
    List String → Except (PyErr α) (List (String × List α))
  | [] => .ok []
  | d :: ds =>
    match pyGet dataset_name_to_file_client d with
    | none => .error (.keyError d)
    | some file_client =>
      let run_query : RunQuery := ⟨⟨file_client⟩, method.name⟩
      let row : String × List α :=
        match score_func run_query with
        | .tup vs => (d, vs)
        | .scalar v => (d, [v])
      match collectRows method dataset_name_to_file_client score_func ds with
      | .error e => .error e
      | .ok rest => .ok (row :: rest)

/-- `_get_score_for_method_` (lines 84-110): collect one row per dataset of
the method, then build the intermediate frame with columns
`[DATA_SET_NAME] + score_names` (line 108).  `pd.DataFrame(data, columns)`
requires every row to have one value per column — with rows
`[d] + list(score)` this means every score list has length
`len(score_names)`; a mismatch is a `ValueError`.  (pandas pads ragged
nested rows to the longest row before this check; that corner is modelled
as the same `ValueError`, which no modelled caller reaches.) -/
def get_score_for_method {α : Type} (method : Method)
    (dataset_name_to_file_client : List (String × DatasetFileClient))
    (score_func : RunQuery → Score α) (score_names : List String) :
    Except (PyErr α) (ScoreFrame α) :=
  match collectRows method dataset_name_to_file_client score_func method.datasets with
  | .error e => .error e
  | .ok data =>
    if data.all fun r => r.2.length == score_names.length then
      .ok ⟨score_names, data⟩
    else
      .error (.valueError ((toString score_names.length) ++
        " columns passed, passed data had a different number of columns"))

/-- The row normalization of lines 103-106, as a function of the score
shape: a tuple contributes its values, a bare scalar contributes the
one-element list. -/
def scoreValues {α : Type} : Score α → List α
  | .scalar v => [v]
  | .tup vs => vs

/-- The run query built for dataset `d` inside the collector loop (lines
100-101), expressed with a total lookup: when `d` is a key of the mapping
this is exactly `RunQuery(DatasetContentsQuery(mapping[d]), method_name)`. -/
def rqOf (fcs : List (String × DatasetFileClient)) (method_name d : String) :
    RunQuery :=
  ⟨⟨(pyGet fcs d).getD default⟩, method_name⟩

/-- The `.loc` assignment of lines 73-74:
`report.loc[fv[DATA_SET_NAME].values, list(itertools.product(field_names, [method]))]
 = fv.iloc[:, 1:].values`.
Row labels are the frame's dataset names, column labels the `(field, method)`
pairs of this method, and the value array is positional along both label
lists.  pandas raises `KeyError` when a list-valued `.loc` row key holds a
label absent from the index, and `ValueError` when the value array's shape
does not match the label lists; with duplicate labels in a key, the later
positional write wins (hence `reverse.lookup`, which finds the last
occurrence). -/
def locSet {α : Type} (report : Report α) (fv : ScoreFrame α)
    (method : String) (field_names : List String) :
    Except (PyErr α) (Report α) :=
  if fv.rows.all fun r => report.index.contains r.1 then
    if fv.rows.all fun r => r.2.length == field_names.length then
      .ok { report with
        cell := fun d c =>
          match fv.rows.reverse.lookup d with
          | some scores =>
            if c.2 == method && field_names.contains c.1 then
              (field_names.zip scores).reverse.lookup c.1
            else report.cell d c
          | none => report.cell d c }
    else .error (.valueError "shape mismatch on .loc assignment")
  else .error (.keyError "a row label is not in the index")

/-- The per-method loop of lines 69-74: for each requested method in caller
order, fetch its record, collect its score frame and merge it into the
report with the `.loc` assignment. -/
def mergeMethods {α : Type} (db_client : DatabaseClient)
    (all_file_clients : List (String × DatasetFileClient))
    (func : RunQuery → Score α) (field_names : List String) :
    List String → Report α → Except (PyErr α) (Report α)
  | [], report => .ok report
  | m :: rest, report =>
    -- `method_instance = db_client.get_method(method)` (line 70), inlined
    match get_score_for_method (db_client.get_method m) all_file_clients func field_names with
    | .error e => .error e
    | .ok field_values =>
      match locSet report field_values m field_names with
      | .error e => .error e
      | .ok report' => mergeMethods db_client all_file_clients func field_names rest report'

/-- `report.dropna(axis="index", how="all", inplace=True)` (line 76): keep a
row exactly when at least one of its cells is non-null.  (A frame with zero
columns has every row all-null vacuously, so all rows are dropped.) -/
def dropnaRowsAll {α : Type} (report : Report α) : Report α :=
  { report with
    index := report.index.filter fun d =>
      report.columns.any fun c => (report.cell d c).isSome }

/-- `report.astype(col_to_dtype)` (line 79) on a frame whose columns are a
two-level `MultiIndex`, with `col_to_dtype` keyed by bare field names.
pandas `DataFrame.astype` with a dict argument:

1. validates that every key is contained in the frame
   (`col_name not in self` raises
   `KeyError("Only a column name can be used for the key in a dtype
   mappings argument.")`); containment in a `MultiIndex` holds for a flat
   key exactly when some column label matches it on the first level;
2. applies a cast only to columns whose full label equals a dict key; every
   full label here is a `(field, method)` pair while every key is a flat
   field string, so no column is cast and every cell is returned unchanged
   (the default `errors="raise"` never comes into play).

Hence: `KeyError` on the first key with no first-level match (which happens
exactly when the dict is non-empty and the column set is empty, since every
key is one of the field names), and otherwise the frame unchanged. -/
def pyAstype {α : Type} (report : Report α)
    (col_to_dtype : List (String × Dtype α)) : Except (PyErr α) (Report α) :=
  match col_to_dtype.find? (fun kv => !report.columns.any fun c => c.1 == kv.1) with
  | some kv => .error (.keyError kv.1)
  | none => .ok report

/-- `get_report_df_from` (lines 42-81): validate the requested methods
against the store, build the empty two-level table over all datasets, merge
in each method's scores, prune all-null rows and run the dtype coercion.
`col_to_dtype` is the dict comprehension of line 78 (`zip` truncates at the
shorter list; for duplicate field names the later entry would win in the
dict, which only affects the unused dtype values). -/
def get_report_df_from {α : Type} (methods : List String)
    (field_names : List String) (dtypes : List (Dtype α))
    (func : RunQuery → Score α) (db_client : DatabaseClient) :
    Except (PyErr α) (Report α) :=
  let all_methods := db_client.get_all_methods
  let errors := pySetDiff methods all_methods
  if errors.length > 0 then
    .error (.methodNotFound (", ".intercalate errors))
  else
    let all_datasets := db_client.get_all_datasets
    let multi_index_columns := pyProduct field_names methods
    let report : Report α := emptyReport all_datasets multi_index_columns
    let all_dataset_instances := all_datasets.map db_client.get_dataset
    let all_file_clients := all_dataset_instances.map fun d =>
      (d.name, DatasetFileClient.mk d.absolute_path)
    match mergeMethods db_client all_file_clients func field_names methods report with
    | .error e => .error e
    | .ok merged =>
      let pruned := dropnaRowsAll merged
      let col_to_dtype := field_names.zip dtypes
      pyAstype pruned col_to_dtype

/-- `create_report_from` (lines 19-39): run the assembly inside
`try/except Exception`, returning `str(e)` on failure; on success export
the report (`utils.df_to_tmp_excel`, outside the `try`, so an export
failure propagates) and return `""`.  The export is real file and process
I/O, abstracted as a fallible action passed in. -/
def create_report_from {α : Type} (methods : List String)
    (field_names : List String) (dtypes : List (Dtype α))
    (func : RunQuery → Score α) (sheet_name : String)
    (db_client : DatabaseClient)
    (df_to_tmp_excel : Report α → String → Except (PyErr α) Unit) :
    Except (PyErr α) String :=
  match get_report_df_from methods field_names dtypes func db_client with
  | .error e => .ok (pyStr e)
  | .ok report =>
    match df_to_tmp_excel report sheet_name with
    | .error e => .error e
    | .ok _ => .ok ""

/-- The position of the first occurrence of a column label, `none` when the
label is absent (pandas raises `KeyError` then).  Duplicate column labels
(where pandas selection would return a sub-frame) are not modelled; the
first occurrence is used. -/
def colIdx? (cols : List String) (c : String) : Option Nat :=
  match cols with
  | [] => none
  | x :: xs => if x == c then some 0 else (colIdx? xs c).map (· + 1)

/-- A pandas `DataFrame` with flat column labels and positional rows, as
consumed by `utils.get_value`: `cols` are the column labels, each row one
value per column. -/
structure SimpleDF (α : Type) where
  cols : List String
  rows : List (List α)
  deriving DecidableEq

/-- The names bound at module scope of `utils.py`: its imports (lines 1-12)
and the functions it defines.  The name `SearchValNotFound` used by the
`except IndexError` handler on line 324 is not among them (nor is it a
parameter or a local of `get_value`, nor a Python builtin) — the same kind
of unbound name as `Path` on lines 23 and 336 of the same file. -/
def utilsModuleNames : List String :=
  ["json", "logging", "os", "pickle", "tempfile", "openpyxl", "pd",
   "Counter", "copy", "load_workbook", "Workbook",
   "List", "Tuple", "Dict", "Union",
   "open_file", "get_item_counts", "most_frequent_plus_frequency",
   "tuple_list_to_string", "convert_lists_to_dataframe",
   "_auto_format_cell_dimensions_", "autofit_dimensions_writer",
   "autofit_dimensions", "append_df_to_excel", "upload_df_dict_to_json",
   "json_to_df_dict", "get_value", "load_pickle", "df_to_tmp_excel"]

/-- `utils.get_value` (lines 308-326):
`filtered_df = df.loc[df[search_col_name] == search_val]`, then inside
`try`: `values = filtered_df[get_col].values; return values[0]`, and
`except IndexError` evaluates
`err = SearchValNotFound(search_col_name, search_val)` (line 324), meaning
to log and re-raise the domain error.  But `utils.py` has no binding for
the name `SearchValNotFound` (see `utilsModuleNames`), so evaluating the
constructor call raises `NameError` from inside the handler — before the
logging call and before the intended re-raise.  The branch in which the
name would resolve (the intended behavior, never reached) keeps the
spec-modelled domain error.

Column selection on a missing label raises `KeyError` (which the
`except IndexError` clause does not catch); `values[0]` raises `IndexError`
exactly when no row matched.  Duplicate column labels (where pandas
selection returns a sub-frame instead of a column) are not modelled:
selection uses the first occurrence of the label.  A row shorter than the
column list cannot arise in a pandas frame; the embedding maps that corner
to a `ValueError`. -/
def get_value {α : Type} [DecidableEq α] (df : SimpleDF α)
    (search_col_name : String) (search_val : α) (get_col : String) :
    Except (PyErr α) α :=
  match colIdx? df.cols search_col_name with
  | none => .error (.keyError search_col_name)
  | some si =>
    let filtered_df := df.rows.filter fun r => r.get? si == some search_val
    match colIdx? df.cols get_col with
    | none => .error (.keyError get_col)
    | some gi =>
      match filtered_df with
      | [] =>
        if utilsModuleNames.contains "SearchValNotFound" then
          .error (.searchValNotFound search_col_name search_val)
        else
          .error (.nameError "name \x27SearchValNotFound\x27 is not defined")
      | r :: _ =>
        match r.get? gi with
        | some v => .ok v
        | none => .error (.valueError "row shorter than the column list")

/-- The names bound at module scope of
`single_index_centered_report.py`: its imports (`List`, `Callable`, `pd`)
and the function it defines.  The name `datasets` used by the loop header
on line 19 is not among them (nor is it a parameter or a local of the
function, nor a Python builtin). -/
def singleIndexModuleNames : List String :=
  ["List", "Callable", "pd", "get_index_centered_report_df_from"]

/-- A single-level-column frame as built by
`single_index_centered_report.py` line 17. -/
structure IndexedFrame (α : Type) where
  index : List String
  cols : List String
  cell : String → String → Option α

/-- `get_index_centered_report_df_from` (lines 6-27): build
`pd.Index(data=inputs)` and the empty frame (both succeed for every input
list), then execute `for dataset in datasets:`.  Evaluating the loop header
resolves the name `datasets`, which has no binding in the enclosing scopes
(see `singleIndexModuleNames`), so a `NameError` is raised before any
iteration — for the empty input list too.  The branch in which the name
would resolve is unreachable; the loop body and the final
`astype(..., errors="ignore")` are never executed and are not modelled
beyond it. -/
def get_index_centered_report_df_from {α : Type} (inputs : List String)
    (column_names : List String) (dtypes : List (Dtype α))
    (func : String → List α) : Except (PyErr α) (IndexedFrame α) :=
  let report : IndexedFrame α :=
    { index := inputs, cols := column_names, cell := fun _ _ => none }
  if singleIndexModuleNames.contains "datasets" then
    .ok report
  else
    .error (.nameError "name \x27datasets\x27 is not defined")

/-! ## Concrete instances used by the witnesses

A small store following the spec's concrete scenario: datasets `A`, `B`,
`C`; method `M1` ran on `A`, `B`; method `M2` ran on `B`, `C`. -/

def exDb : DatabaseClient :=
  { get_all_methods := ["M1", "M2"]
    get_all_datasets := ["A", "B", "C"]
    get_method := fun m => if m == "M1" then Method.mk "M1" ["A", "B"] else Method.mk "M2" ["B", "C"]
    get_dataset := fun n => Dataset.mk n ("/data/" ++ n) }

/-- A scalar-returning scoring function (the length of the content path). -/
def exScalarFunc : RunQuery → Score Nat :=
  fun q => .scalar q.contents_query.file_client.path.length

/-- A dtype for which every value converts (to itself). -/
def exDtype : Dtype Nat := fun v => some v

/-- A dtype for which no value converts. -/
def exBadDtype : Dtype Nat := fun _ => none

/-- The table assembled from the concrete scenario. -/
def exOkReport : Report Nat :=
  match get_report_df_from ["M1", "M2"] ["score"] [exDtype] exScalarFunc exDb with
  | .ok r => r
  | .error _ => default

def exMethod : Method := ⟨"M1", ["A", "B"]⟩

def exFcs : List (String × DatasetFileClient) :=
  [("A", ⟨"/data/A"⟩), ("B", ⟨"/data/B"⟩)]

/-- A small lookup frame: columns `id`, `val`. -/
def exDf : SimpleDF Nat := ⟨["id", "val"], [[1, 10], [2, 20], [1, 30]]⟩

/-! ## Helper lemmas -/

theorem mem_pySetDiff {x : String} {xs ys : List String} :
    x ∈ pySetDiff xs ys ↔ x ∈ xs ∧ x ∉ ys := by
  simp [pySetDiff, List.mem_dedup, List.mem_filter]

theorem pySetDiff_eq_nil_iff {xs ys : List String} :
    pySetDiff xs ys = [] ↔ ∀ x ∈ xs, x ∈ ys := by
  rw [List.eq_nil_iff_forall_not_mem]
  constructor
  · intro h x hx
    by_contra hni
    exact h x (mem_pySetDiff.mpr ⟨hx, hni⟩)
  · intro h x hx
    obtain ⟨h1, h2⟩ := mem_pySetDiff.mp hx
    exact h2 (h x h1)

theorem pyProduct_nil_right (fields : List String) : pyProduct fields [] = [] := by
  simp [pyProduct]

/-- The report produced by `locSet` keeps the index and column labels. -/
theorem locSet_ok_shape {α : Type} {report : Report α} {fv : ScoreFrame α}
    {method : String} {field_names : List String} {report' : Report α}
    (h : locSet report fv method field_names = .ok report') :
    report'.index = report.index ∧ report'.columns = report.columns := by
  unfold locSet at h
  split at h
  · split at h
    · cases h
      exact ⟨rfl, rfl⟩
    · cases h
  · cases h

theorem locSet_error_shape {α : Type} {report : Report α} {fv : ScoreFrame α}
    {method : String} {field_names : List String} {e : PyErr α}
    (h : locSet report fv method field_names = .error e) :
    (∃ k, e = .keyError k) ∨ (∃ s, e = .valueError s) := by
  unfold locSet at h
  split at h
  · split at h
    · cases h
    · cases h
      exact Or.inr ⟨_, rfl⟩
  · cases h
    exact Or.inl ⟨_, rfl⟩

theorem collectRows_error_shape {α : Type} {method : Method}
    {fcs : List (String × DatasetFileClient)} {func : RunQuery → Score α}
    {ds : List String} {e : PyErr α}
    (h : collectRows method fcs func ds = .error e) : ∃ k, e = .keyError k := by
  induction ds with
  | nil => cases h
  | cons d ds ih =>
    unfold collectRows at h
    split at h
    · cases h
      exact ⟨_, rfl⟩
    · split at h
      · cases h
        exact ih (by assumption)
      · cases h

theorem get_score_for_method_error_shape {α : Type} {method : Method}
    {fcs : List (String × DatasetFileClient)} {func : RunQuery → Score α}
    {score_names : List String} {e : PyErr α}
    (h : get_score_for_method method fcs func score_names = .error e) :
    (∃ k, e = .keyError k) ∨ (∃ s, e = .valueError s) := by
  unfold get_score_for_method at h
  split at h
  · rename_i heq
    cases h
    exact Or.inl (collectRows_error_shape heq)
  · split at h
    · cases h
    · cases h
      exact Or.inr ⟨_, rfl⟩

/-- Merging preserves the index and column labels of the report. -/
theorem mergeMethods_ok_shape {α : Type} {db_client : DatabaseClient}
    {fcs : List (String × DatasetFileClient)} {func : RunQuery → Score α}
    {field_names : List String} {ms : List String} {report report' : Report α}
    (h : mergeMethods db_client fcs func field_names ms report = .ok report') :
    report'.index = report.index ∧ report'.columns = report.columns := by
  induction ms generalizing report with
  | nil =>
    cases h
    exact ⟨rfl, rfl⟩
  | cons m ms ih =>
    unfold mergeMethods at h
    split at h
    · cases h
    · split at h
      · cases h
      · rename_i hloc
        obtain ⟨hi, hc⟩ := ih h
        obtain ⟨hi', hc'⟩ := locSet_ok_shape hloc
        exact ⟨hi.trans hi', hc.trans hc'⟩

theorem mergeMethods_error_shape {α : Type} {db_client : DatabaseClient}
    {fcs : List (String × DatasetFileClient)} {func : RunQuery → Score α}
    {field_names : List String} {ms : List String} {report : Report α} {e : PyErr α}
    (h : mergeMethods db_client fcs func field_names ms report = .error e) :
    (∃ k, e = .keyError k) ∨ (∃ s, e = .valueError s) := by
  induction ms generalizing report with
  | nil => cases h
  | cons m ms ih =>
    unfold mergeMethods at h
    split at h
    · rename_i heq
      cases h
      exact get_score_for_method_error_shape heq
    · split at h
      · rename_i hloc
        cases h
        exact locSet_error_shape hloc
      · exact ih h

theorem pyAstype_ok_eq {α : Type} {report : Report α}
    {col_to_dtype : List (String × Dtype α)} {report' : Report α}
    (h : pyAstype report col_to_dtype = .ok report') : report' = report := by
  unfold pyAstype at h
  split at h
  · cases h
  · cases h
    rfl

theorem pyAstype_error_shape {α : Type} {report : Report α}
    {col_to_dtype : List (String × Dtype α)} {e : PyErr α}
    (h : pyAstype report col_to_dtype = .error e) : ∃ k, e = .keyError k := by
  unfold pyAstype at h
  split at h
  · cases h
    exact ⟨_, rfl⟩
  · cases h

/-- `dropnaRowsAll` changes only the index. -/
theorem dropnaRowsAll_columns {α : Type} (report : Report α) :
    (dropnaRowsAll report).columns = report.columns := rfl

theorem dropnaRowsAll_cell {α : Type} (report : Report α) :
    (dropnaRowsAll report).cell = report.cell := rfl

/-- Zeta-reduced shape of `get_report_df_from`, for case analysis. -/
theorem get_report_df_from_eq {α : Type} (methods field_names : List String)
    (dtypes : List (Dtype α)) (func : RunQuery → Score α) (db_client : DatabaseClient) :
    get_report_df_from methods field_names dtypes func db_client =
      if (pySetDiff methods db_client.get_all_methods).length > 0 then
        .error (.methodNotFound
          (", ".intercalate (pySetDiff methods db_client.get_all_methods)))
      else
        match mergeMethods db_client
            ((db_client.get_all_datasets.map db_client.get_dataset).map fun d =>
              (d.name, DatasetFileClient.mk d.absolute_path))
            func field_names methods
            (emptyReport db_client.get_all_datasets (pyProduct field_names methods)) with
        | .error e => .error e
        | .ok merged => pyAstype (dropnaRowsAll merged) (field_names.zip dtypes) := rfl

/-- Unfolding step for `pyAstype` on a non-empty dtype mapping. -/
theorem pyAstype_cons {α : Type} (report : Report α) (kv : String × Dtype α)
    (kvs : List (String × Dtype α)) :
    pyAstype report (kv :: kvs) =
      if report.columns.any (fun c => c.1 == kv.1) then pyAstype report kvs
      else .error (.keyError kv.1) := by
  cases hB : report.columns.any (fun c => c.1 == kv.1) <;>
    simp [pyAstype, List.find?, hB]

/-- `pyAstype` depends only on the keys of the dtype mapping. -/
theorem pyAstype_congr_keys {α : Type} (report : Report α)
    (c1 c2 : List (String × Dtype α)) (h : c1.map Prod.fst = c2.map Prod.fst) :
    pyAstype report c1 = pyAstype report c2 := by
  induction c1 generalizing c2 with
  | nil =>
    cases c2 with
    | nil => rfl
    | cons _ _ => simp at h
  | cons kv kvs ih =>
    cases c2 with
    | nil => simp at h
    | cons kv' kvs' =>
      simp only [List.map_cons, List.cons.injEq] at h
      obtain ⟨hk, ht⟩ := h
      rw [pyAstype_cons, pyAstype_cons, hk, ih kvs' ht]

/-- Zipping the same key list with value lists of equal length yields the
same key projection. -/
theorem zip_map_fst_eq {α : Type} (fields : List String)
    (d1 d2 : List (Dtype α)) (h : d1.length = d2.length) :
    (fields.zip d1).map Prod.fst = (fields.zip d2).map Prod.fst := by
  induction fields generalizing d1 d2 with
  | nil => rfl
  | cons f fs ih =>
    cases d1 with
    | nil =>
      cases d2 with
      | nil => rfl
      | cons _ _ => simp at h
    | cons x xs =>
      cases d2 with
      | nil => simp at h
      | cons y ys =>
        simp only [List.zip_cons_cons, List.map_cons]
        rw [ih xs ys (by simpa using h)]

/-- In the validated branch, the assembly can only fail with `KeyError` or
`ValueError`, never with `MethodNotFound`. -/
theorem get_report_df_from_no_mnf {α : Type} {methods field_names : List String}
    {dtypes : List (Dtype α)} {func : RunQuery → Score α} {db_client : DatabaseClient}
    (hvalid : ¬(pySetDiff methods db_client.get_all_methods).length > 0) :
    ∀ msg, get_report_df_from methods field_names dtypes func db_client
      ≠ .error (.methodNotFound msg) := by
  intro msg h
  rw [get_report_df_from_eq, if_neg hvalid] at h
  split at h
  · rename_i e hmerge
    cases h
    rcases mergeMethods_error_shape hmerge with ⟨k, hk⟩ | ⟨s, hs⟩ <;> simp_all
  · rcases pyAstype_error_shape h with ⟨k, hk⟩
    simp at hk

/-- Claim C1: `get_report_df_from` raises `MethodNotFound` exactly when some
requested method name is unknown to the store; the message is the
comma-join of exactly the unknown names; and in that case the result
depends on nothing but the requested methods and the store's method list
(no table construction, no store traversal). -/
theorem claim1_method_not_found {α : Type} (methods field_names : List String)
    (dtypes : List (Dtype α)) (func : RunQuery → Score α)
    (db_client : DatabaseClient) :
    ((∃ msg, get_report_df_from methods field_names dtypes func db_client
        = .error (.methodNotFound msg))
      ↔ ∃ m ∈ methods, m ∉ db_client.get_all_methods)
    ∧ (∀ msg, get_report_df_from methods field_names dtypes func db_client
        = .error (.methodNotFound msg) →
        msg = ", ".intercalate (pySetDiff methods db_client.get_all_methods)
        ∧ ∀ x, x ∈ pySetDiff methods db_client.get_all_methods ↔
            (x ∈ methods ∧ x ∉ db_client.get_all_methods))
    ∧ (∀ (db' : DatabaseClient) (func' : RunQuery → Score α),
        db'.get_all_methods = db_client.get_all_methods →
        (∃ m ∈ methods, m ∉ db_client.get_all_methods) →
        get_report_df_from methods field_names dtypes func' db'
          = get_report_df_from methods field_names dtypes func db_client) := by
  have hpos : (∃ m ∈ methods, m ∉ db_client.get_all_methods) ↔
      (pySetDiff methods db_client.get_all_methods).length > 0 := by
    rw [gt_iff_lt, List.length_pos]
    constructor
    · rintro ⟨m, hm, hnm⟩ hnil
      rw [pySetDiff_eq_nil_iff] at hnil
      exact hnm (hnil m hm)
    · intro hne
      obtain ⟨x, hx⟩ := List.exists_mem_of_ne_nil _ hne
      exact ⟨x, (mem_pySetDiff.mp hx).1, (mem_pySetDiff.mp hx).2⟩
  refine ⟨?_, ?_, ?_⟩
  · constructor
    · rintro ⟨msg, hmsg⟩
      by_cases hv : (pySetDiff methods db_client.get_all_methods).length > 0
      · exact hpos.mpr hv
      · exact absurd hmsg (get_report_df_from_no_mnf hv msg)
    · intro hex
      rw [get_report_df_from_eq, if_pos (hpos.mp hex)]
      exact ⟨_, rfl⟩
  · intro msg hmsg
    by_cases hv : (pySetDiff methods db_client.get_all_methods).length > 0
    · rw [get_report_df_from_eq, if_pos hv] at hmsg
      refine ⟨?_, fun x => mem_pySetDiff⟩
      injection hmsg with h
      injection h with h2
      exact h2.symm
    · exact absurd hmsg (get_report_df_from_no_mnf hv msg)
  · intro db' func' hsame hex
    rw [get_report_df_from_eq, get_report_df_from_eq, hsame,
      if_pos (hpos.mp hex), if_pos (hpos.mp hex)]

/-- Claim C2: the coercion step leaves every cell unchanged whenever it
succeeds (in particular an unconvertible value is left unconverted rather
than failing anything), and the result of the whole assembly does not
depend on the declared conversion behavior at all — replacing every dtype
by one for which every value is unconvertible changes nothing, so an
unconvertible value never fails the assembly. -/
theorem claim2_lenient_coercion {α : Type} (methods field_names : List String)
    (dtypes1 dtypes2 : List (Dtype α)) (func : RunQuery → Score α)
    (db_client : DatabaseClient) (report report' : Report α)
    (col_to_dtype : List (String × Dtype α))
    (hlen : dtypes1.length = dtypes2.length)
    (hok : pyAstype report col_to_dtype = .ok report') :
    report' = report
    ∧ get_report_df_from methods field_names dtypes1 func db_client
        = get_report_df_from methods field_names dtypes2 func db_client := by
  refine ⟨pyAstype_ok_eq hok, ?_⟩
  rw [get_report_df_from_eq, get_report_df_from_eq]
  split
  · rfl
  · split
    · rfl
    · exact pyAstype_congr_keys _ _ _ (zip_map_fst_eq field_names dtypes1 dtypes2 hlen)

/-- Claim C4: every successfully assembled table has exactly the column
labels `field_names × methods`, in field-major, method-minor order. -/
theorem claim4_column_set {α : Type} (methods field_names : List String)
    (dtypes : List (Dtype α)) (func : RunQuery → Score α)
    (db_client : DatabaseClient) (report : Report α)
    (hok : get_report_df_from methods field_names dtypes func db_client = .ok report) :
    report.columns = pyProduct field_names methods := by
  rw [get_report_df_from_eq] at hok
  split at hok
  · cases hok
  · split at hok
    · cases hok
    · rename_i merged hmerge
      rw [pyAstype_ok_eq hok, dropnaRowsAll_columns, (mergeMethods_ok_shape hmerge).2]
      rfl

/-- Claim C5: in every successfully assembled table each remaining row has a
non-null cell, and the row index is exactly the store's dataset list
restricted to the rows some method wrote to (all-null rows are pruned). -/
theorem claim5_pruning {α : Type} (methods field_names : List String)
    (dtypes : List (Dtype α)) (func : RunQuery → Score α)
    (db_client : DatabaseClient) (report : Report α)
    (hok : get_report_df_from methods field_names dtypes func db_client = .ok report) :
    (∀ d ∈ report.index, ∃ c ∈ report.columns, (report.cell d c).isSome = true)
    ∧ report.index = db_client.get_all_datasets.filter
        (fun d => report.columns.any fun c => (report.cell d c).isSome) := by
  rw [get_report_df_from_eq] at hok
  split at hok
  · cases hok
  · split at hok
    · cases hok
    · rename_i merged hmerge
      have h1 := pyAstype_ok_eq hok
      have hidx := (mergeMethods_ok_shape hmerge).1
      subst h1
      constructor
      · intro d hd
        have hd' : d ∈ merged.index.filter
            (fun d => merged.columns.any fun c => (merged.cell d c).isSome) := hd
        obtain ⟨_, hpred⟩ := List.mem_filter.mp hd'
        obtain ⟨c, hc, hsome⟩ := List.any_eq_true.mp hpred
        exact ⟨c, hc, hsome⟩
      · show merged.index.filter _ = _
        rw [hidx]
        rfl

/-- Claim C3 fails on the code: with a non-empty field list (and one dtype
per field, as documented) the empty method list does not produce an empty
report — the final `astype` raises `KeyError`, because its dict key
`"score"` is not contained in the empty column set
`field_names × []`. -/
theorem claim3_counterexample :
    get_report_df_from ([] : List String) ["score"]
        [(fun v => some v : Dtype Nat)]
        (fun q => .scalar q.contents_query.file_client.path.length)
        ⟨[], ["A"], fun _ => ⟨"", []⟩, fun n => ⟨n, "/" ++ n⟩⟩
      = .error (.keyError "score") := rfl

/-- Claim C3 amended: with `methods = []` the assembly raises `KeyError` on
the first field name whenever both `field_names` and `dtypes` are non-empty
(the dtype dict key matches no column of the empty column set); it returns
the table with zero columns and zero rows only when the dtype mapping is
empty, i.e. when `field_names` or `dtypes` is empty. -/
theorem claim3_empty_methods {α : Type} (field_names : List String)
    (dtypes : List (Dtype α)) (func : RunQuery → Score α)
    (db_client : DatabaseClient) :
    (∀ (h1 : field_names ≠ []), dtypes ≠ [] →
      get_report_df_from [] field_names dtypes func db_client
        = .error (.keyError (field_names.head h1)))
    ∧ ((field_names = [] ∨ dtypes = []) →
      get_report_df_from [] field_names dtypes func db_client
        = .ok { index := [], columns := [], cell := fun _ _ => none }) := by
  have hneg : ¬(pySetDiff [] db_client.get_all_methods).length > 0 := by
    simp [pySetDiff]
  have hpruned : dropnaRowsAll (emptyReport (α := α) db_client.get_all_datasets
      (pyProduct field_names [])) =
      { index := [], columns := [], cell := fun _ _ => none } := by
    simp [dropnaRowsAll, emptyReport, pyProduct_nil_right]
  constructor
  · intro h1 h2
    obtain ⟨f, fs, rfl⟩ := List.exists_cons_of_ne_nil h1
    obtain ⟨dt, dts, rfl⟩ := List.exists_cons_of_ne_nil h2
    rw [get_report_df_from_eq, if_neg hneg]
    show pyAstype (dropnaRowsAll (emptyReport _ _)) _ = _
    rw [hpruned, List.zip_cons_cons, pyAstype_cons]
    simp
  · intro hzip
    rw [get_report_df_from_eq, if_neg hneg]
    show pyAstype (dropnaRowsAll (emptyReport _ _)) _ = _
    rw [hpruned]
    rcases hzip with h | h <;> rw [h] <;> simp [pyAstype]

/-- Under full coverage of the method's datasets, the collector loop
produces exactly one normalized row per dataset, in order. -/
theorem collectRows_eq_map {α : Type} (method : Method)
    (fcs : List (String × DatasetFileClient)) (func : RunQuery → Score α) :
    ∀ ds : List String, (∀ d ∈ ds, (pyGet fcs d).isSome) →
      collectRows method fcs func ds
        = .ok (ds.map fun d => (d, scoreValues (func (rqOf fcs method.name d)))) := by
  intro ds
  induction ds with
  | nil => intro _; rfl
  | cons d ds ih =>
    intro hcov
    obtain ⟨fc, hfc⟩ := Option.isSome_iff_exists.mp (hcov d (List.mem_cons_self d ds))
    have hrq : rqOf fcs method.name d = ⟨⟨fc⟩, method.name⟩ := by
      rw [rqOf, hfc]
      rfl
    unfold collectRows
    rw [hfc, ih (fun x hx => hcov x (List.mem_cons_of_mem d hx))]
    simp only [List.map_cons]
    rw [hrq]
    cases func ⟨⟨fc⟩, method.name⟩ <;> rfl

/-- Claim C6: for a content-handle mapping covering all of the method's
datasets and a scoring function whose (normalized) arity matches the field
list, the collector returns exactly one row per dataset in the method's
dataset list, each row being the dataset name followed by the score values
in field order. -/
theorem claim6_collector_shape {α : Type} (method : Method)
    (fcs : List (String × DatasetFileClient)) (func : RunQuery → Score α)
    (field_names : List String)
    (hcov : ∀ d ∈ method.datasets, (pyGet fcs d).isSome)
    (harity : ∀ d ∈ method.datasets,
      (scoreValues (func (rqOf fcs method.name d))).length = field_names.length) :
    get_score_for_method method fcs func field_names
      = .ok ⟨field_names, method.datasets.map fun d =>
          (d, scoreValues (func (rqOf fcs method.name d)))⟩ := by
  unfold get_score_for_method
  rw [collectRows_eq_map method fcs func method.datasets hcov]
  have hall : (method.datasets.map fun d =>
      (d, scoreValues (func (rqOf fcs method.name d)))).all
        (fun r => r.2.length == field_names.length) = true := by
    rw [List.all_eq_true]
    intro r hr
    obtain ⟨d, hd, rfl⟩ := List.mem_map.mp hr
    simpa using harity d hd
  simp [hall]

/-- A scalar-returning and a one-tuple-returning scoring function produce
the same collector rows. -/
theorem collectRows_scalar_tup {α : Type} (method : Method)
    (fcs : List (String × DatasetFileClient)) (v : RunQuery → α) :
    ∀ ds : List String,
      collectRows method fcs (fun q => Score.scalar (v q)) ds
        = collectRows method fcs (fun q => Score.tup [v q]) ds := by
  intro ds
  induction ds with
  | nil => rfl
  | cons d ds ih =>
    unfold collectRows
    cases hfc : pyGet fcs d with
    | none => rfl
    | some fc => rw [ih]

theorem get_score_scalar_tup {α : Type} (method : Method)
    (fcs : List (String × DatasetFileClient)) (v : RunQuery → α)
    (field_names : List String) :
    get_score_for_method method fcs (fun q => Score.scalar (v q)) field_names
      = get_score_for_method method fcs (fun q => Score.tup [v q]) field_names := by
  unfold get_score_for_method
  rw [collectRows_scalar_tup]

theorem mergeMethods_scalar_tup {α : Type} (db_client : DatabaseClient)
    (fcs : List (String × DatasetFileClient)) (v : RunQuery → α)
    (field_names : List String) :
    ∀ (ms : List String) (report : Report α),
      mergeMethods db_client fcs (fun q => Score.scalar (v q)) field_names ms report
        = mergeMethods db_client fcs (fun q => Score.tup [v q]) field_names ms report := by
  intro ms
  induction ms with
  | nil => intro report; rfl
  | cons m ms ih =>
    intro report
    unfold mergeMethods
    rw [get_score_scalar_tup]
    cases get_score_for_method (db_client.get_method m) fcs
        (fun q => Score.tup [v q]) field_names with
    | error e => rfl
    | ok fv =>
      show (match locSet report fv m field_names with
        | Except.error e => Except.error e
        | Except.ok rep2 => mergeMethods db_client fcs (fun q => Score.scalar (v q))
            field_names ms rep2)
        = (match locSet report fv m field_names with
        | Except.error e => Except.error e
        | Except.ok rep2 => mergeMethods db_client fcs (fun q => Score.tup [v q])
            field_names ms rep2 : Except (PyErr α) (Report α))
      cases locSet report fv m field_names with
      | error e => rfl
      | ok rep2 => exact ih rep2

/-- Claim C7: a scoring function returning a bare scalar `v q` produces
exactly the same collected rows, and the same assembled table, as one
returning the one-element tuple `(v q,)` — in particular for a single
declared field name. -/
theorem claim7_scalar_vs_tuple {α : Type} (v : RunQuery → α) (method : Method)
    (fcs : List (String × DatasetFileClient)) (methods field_names : List String)
    (dtypes : List (Dtype α)) (db_client : DatabaseClient) :
    get_score_for_method method fcs (fun q => Score.scalar (v q)) field_names
      = get_score_for_method method fcs (fun q => Score.tup [v q]) field_names
    ∧ get_report_df_from methods field_names dtypes
        (fun q => Score.scalar (v q)) db_client
      = get_report_df_from methods field_names dtypes
        (fun q => Score.tup [v q]) db_client := by
  refine ⟨get_score_scalar_tup method fcs v field_names, ?_⟩
  rw [get_report_df_from_eq, get_report_df_from_eq]
  split
  · rfl
  · rw [mergeMethods_scalar_tup]

/-- Claim C8: the report-creation entry point never propagates an exception
raised during assembly — an assembly error is converted to its string
message and returned as the (successful) result — and a fully successful
run returns the empty string. -/
theorem claim8_never_throw {α : Type} (methods field_names : List String)
    (dtypes : List (Dtype α)) (func : RunQuery → Score α) (sheet_name : String)
    (db_client : DatabaseClient)
    (df_to_excel : Report α → String → Except (PyErr α) Unit) :
    (∀ e, get_report_df_from methods field_names dtypes func db_client = .error e →
      create_report_from methods field_names dtypes func sheet_name db_client
        df_to_excel = .ok (pyStr e))
    ∧ (∀ rep, get_report_df_from methods field_names dtypes func db_client = .ok rep →
      df_to_excel rep sheet_name = .ok () →
      create_report_from methods field_names dtypes func sheet_name db_client
        df_to_excel = .ok "") := by
  constructor
  · intro e he
    unfold create_report_from
    rw [he]
  · intro rep hrep hexp
    unfold create_report_from
    rw [hrep]
    show (match df_to_excel rep sheet_name with
      | Except.error e => Except.error e
      | Except.ok _ => Except.ok "" : Except (PyErr α) String) = Except.ok ""
    rw [hexp]

theorem colIdx?_lt_length {cols : List String} {c : String} {i : Nat}
    (h : colIdx? cols c = some i) : i < cols.length := by
  induction cols generalizing i with
  | nil => cases h
  | cons x xs ih =>
    unfold colIdx? at h
    split at h
    · cases h
      simp
    · cases hx : colIdx? xs c with
      | none => rw [hx] at h; cases h
      | some j =>
        rw [hx] at h
        simp only [Option.map_some'] at h
        cases h
        have := ih hx
        simp
        omega

/-- Claim C9 is right about the intent but the code has a bug: when both
columns exist and the frame is rectangular, an empty match does not raise
the domain error `SearchValNotFound` — evaluating that unbound name inside
the `except IndexError` handler raises `NameError` first, before the
logging call.  On a non-empty match `get_value` does return the
target-column value of the first matching row without raising, as the
claim says. -/
theorem claim9_get_value {α : Type} [DecidableEq α] [Inhabited α]
    (df : SimpleDF α) (search_col_name get_col : String) (search_val : α)
    (si gi : Nat)
    (hs : colIdx? df.cols search_col_name = some si)
    (hg : colIdx? df.cols get_col = some gi)
    (hrect : ∀ r ∈ df.rows, r.length = df.cols.length) :
    (df.rows.filter (fun r => r.get? si == some search_val) = [] →
      get_value df search_col_name search_val get_col
        = .error (.nameError "name \x27SearchValNotFound\x27 is not defined"))
    ∧ (∀ r rest, df.rows.filter (fun r => r.get? si == some search_val) = r :: rest →
      get_value df search_col_name search_val get_col = .ok (r.getD gi default)) := by
  constructor
  · intro hnone
    simp only [get_value, hs, hg, hnone]
    rfl
  · intro r rest hcons
    have hmem : r ∈ df.rows := by
      have : r ∈ df.rows.filter (fun r => r.get? si == some search_val) := by
        rw [hcons]; exact List.mem_cons_self r rest
      exact List.mem_of_mem_filter this
    have hlen : gi < r.length := by
      rw [hrect r hmem]
      exact colIdx?_lt_length hg
    cases hget : r.get? gi with
    | none =>
      rw [List.get?_eq_none] at hget
      omega
    | some value =>
      have hgetD : r.getD gi default = value := by
        rw [List.getD_eq_get?, hget]
        rfl
      simp only [get_value, hs, hg, hcons, hget, hgetD]

/-- Claim C10: `get_index_centered_report_df_from` never returns a table —
for every combination of inputs (the empty list included), the loop header
`for dataset in datasets:` resolves the unbound name `datasets` and raises
`NameError`. -/
theorem claim10_name_error {α : Type} (inputs column_names : List String)
    (dtypes : List (Dtype α)) (func : String → List α) :
    get_index_centered_report_df_from inputs column_names dtypes func
      = .error (.nameError "name \x27datasets\x27 is not defined") := rfl

/-! ## Witnesses: the claim theorems applied at concrete inputs -/

/-- C1 at a concrete input: requesting the unknown method `ghost` fails with
`MethodNotFound` whose message is the comma-join of the unknown names. -/
theorem claim1_witness :
    get_report_df_from ["ghost"] ["score"] [exDtype] exScalarFunc exDb
      = .error (.methodNotFound "ghost")
    ∧ "ghost" = ", ".intercalate (pySetDiff ["ghost"] exDb.get_all_methods) :=
  ⟨rfl,
   ((claim1_method_not_found ["ghost"] ["score"] [exDtype] exScalarFunc exDb).2.1
     "ghost" rfl).1⟩

/-- C2 at a concrete input: a successful coercion step returns its input
unchanged, and swapping the dtype for one under which no value converts
does not change the assembled table. -/
theorem claim2_witness :
    pyAstype exOkReport [("score", exDtype)] = .ok exOkReport
    ∧ get_report_df_from ["M1", "M2"] ["score"] [exDtype] exScalarFunc exDb
        = get_report_df_from ["M1", "M2"] ["score"] [exBadDtype] exScalarFunc exDb :=
  ⟨rfl,
   (claim2_lenient_coercion ["M1", "M2"] ["score"] [exDtype] [exBadDtype]
     exScalarFunc exDb exOkReport exOkReport [("score", exDtype)] rfl rfl).2⟩

/-- C3 (amended) at concrete inputs: `methods = []` with one field and one
dtype raises `KeyError "score"`; with an empty dtype list it returns the
zero-column, zero-row table. -/
theorem claim3_witness :
    get_report_df_from ([] : List String) ["score"] [exDtype] exScalarFunc exDb
      = .error (.keyError "score")
    ∧ get_report_df_from ([] : List String) ["score"] ([] : List (Dtype Nat))
        exScalarFunc exDb
      = .ok { index := [], columns := [], cell := fun _ _ => none } :=
  ⟨(claim3_empty_methods ["score"] [exDtype] exScalarFunc exDb).1
     (by simp) (by simp),
   (claim3_empty_methods ["score"] [] exScalarFunc exDb).2 (Or.inr rfl)⟩

/-- C4 at a concrete input: the assembled table of the concrete scenario
has exactly the columns `["score"] × ["M1", "M2"]`. -/
theorem claim4_witness :
    get_report_df_from ["M1", "M2"] ["score"] [exDtype] exScalarFunc exDb
      = .ok exOkReport
    ∧ exOkReport.columns = pyProduct ["score"] ["M1", "M2"] :=
  ⟨rfl, claim4_column_set ["M1", "M2"] ["score"] [exDtype] exScalarFunc exDb
    exOkReport rfl⟩

/-- C5 at a concrete input: the assembled table of the concrete scenario
keeps exactly the store's datasets that received some value. -/
theorem claim5_witness :
    get_report_df_from ["M1", "M2"] ["score"] [exDtype] exScalarFunc exDb
      = .ok exOkReport
    ∧ exOkReport.index = exDb.get_all_datasets.filter
        (fun d => exOkReport.columns.any fun c => (exOkReport.cell d c).isSome) :=
  ⟨rfl, (claim5_pruning ["M1", "M2"] ["score"] [exDtype] exScalarFunc exDb
    exOkReport rfl).2⟩

/-- C6 at a concrete input: the collector returns one row per dataset of
`M1`, each row the dataset name followed by its score. -/
theorem claim6_witness :
    get_score_for_method exMethod exFcs exScalarFunc ["score"]
      = .ok ⟨["score"], [("A", [7]), ("B", [7])]⟩ :=
  claim6_collector_shape exMethod exFcs exScalarFunc ["score"]
    (by decide) (by decide)

/-- C8 at concrete inputs: an assembly failure is returned as its message,
a full success as the empty string. -/
theorem claim8_witness :
    create_report_from ["ghost"] ["score"] [exDtype] exScalarFunc "Sheet1" exDb
        (fun _ _ => .ok ()) = .ok "ghost"
    ∧ create_report_from ["M1", "M2"] ["score"] [exDtype] exScalarFunc "Sheet1"
        exDb (fun _ _ => .ok ()) = .ok "" :=
  ⟨(claim8_never_throw ["ghost"] ["score"] [exDtype] exScalarFunc "Sheet1" exDb
      (fun _ _ => .ok ())).1 (.methodNotFound "ghost") rfl,
   (claim8_never_throw ["M1", "M2"] ["score"] [exDtype] exScalarFunc "Sheet1" exDb
      (fun _ _ => .ok ())).2 exOkReport rfl rfl⟩

/-- C9 at concrete inputs: looking `id = 2` up returns the first matching
`val`; looking `id = 5` up (no match, the claim's failing input) raises
`NameError` instead of the domain error the claim describes. -/
theorem claim9_witness :
    get_value exDf "id" (2 : Nat) "val" = .ok 20
    ∧ get_value exDf "id" (5 : Nat) "val"
        = .error (.nameError "name \x27SearchValNotFound\x27 is not defined") :=
  ⟨(claim9_get_value exDf "id" "val" 2 0 1 rfl rfl (by decide)).2
     [2, 20] [] (by decide),
   (claim9_get_value exDf "id" "val" 5 0 1 rfl rfl (by decide)).1 (by decide)⟩

end CommonUtils
